import Mathlib

/-!
Verification of the Connect-4 battle server core (src/app.py and
src/anthropic_model_v1.py), shallowly embedded in Lean.

Boards are lists of rows of characters, exactly as in the Python source:
`'.'` marks an empty cell, `'R'` and `'Y'` are the two pieces.  Row 0 is the
top row.  Python's in-place mutation of the board is modelled by returning
the updated board.  Out-of-range reads (which the Python code never
performs on well-formed boards) are totalized with the sentinel `' '`,
a character that never occurs in a source board.
-/

/-- A Connect-4 board: a list of rows, each a list of cells (src/app.py). -/
abbrev Board := List (List Char)

abbrev COLS : Nat := 7

abbrev ROWS : Nat := 6

/-- Totalized read of `board[r][c]`. -/
def cell (b : Board) (r c : Nat) : Char := (b.getD r []).getD c ' '

/-- `create_empty_board` (src/app.py line 51): 7 cols x 6 rows of `'.'`. -/
def create_empty_board : Board := List.replicate ROWS (List.replicate COLS '.')

/-- `get_valid_columns` (src/app.py line 68): 1-indexed columns whose top
cell is empty, in increasing order. -/
def get_valid_columns (b : Board) : List Int :=
  (List.range COLS).filterMap fun col =>
    if cell b 0 col = '.' then some ((col : Int) + 1) else none

/-- Write `board[r][c] = piece` (the single mutation drop_piece performs). -/
def set_cell (b : Board) (r c : Nat) (piece : Char) : Board :=
  b.set r ((b.getD r []).set c piece)

/-- The scanning loop of `drop_piece` over row indices
`range(ROWS - 1, -1, -1)`: first empty cell wins. -/
def drop_loop (b : Board) (c : Nat) (piece : Char) : List Nat → Bool × Int × Board
  | [] => (false, -1, b)
  | r :: rs =>
      if cell b r c = '.' then (true, (r : Int), set_cell b r c piece)
      else drop_loop b c piece rs

/-- `drop_piece` (src/app.py lines 77-94).  `col` is 1-indexed; the result
is `(success, row_placed, board_after)` with the row 0-indexed from the
top, `-1` on failure. -/
def drop_piece (b : Board) (col : Int) (piece : Char) : Bool × Int × Board :=
  let col_idx : Int := col - 1
  if col_idx < 0 ∨ (COLS : Int) ≤ col_idx then (false, -1, b)
  else drop_loop b col_idx.toNat piece ((List.range ROWS).reverse)

/-- `check_winner` (src/app.py lines 97-135): scan every in-range window of
four cells in the four directions.  The up-right loop ranges over
`row in range(3, ROWS)`, written here as `i + 3` with `i < ROWS - 3`. -/
def check_winner (b : Board) (piece : Char) : Bool :=
  ((List.range ROWS).any fun row => (List.range (COLS - 3)).any fun col =>
    (cell b row col == piece) && (cell b row (col + 1) == piece) &&
    (cell b row (col + 2) == piece) && (cell b row (col + 3) == piece)) ||
  ((List.range (ROWS - 3)).any fun row => (List.range COLS).any fun col =>
    (cell b row col == piece) && (cell b (row + 1) col == piece) &&
    (cell b (row + 2) col == piece) && (cell b (row + 3) col == piece)) ||
  ((List.range (ROWS - 3)).any fun row => (List.range (COLS - 3)).any fun col =>
    (cell b row col == piece) && (cell b (row + 1) (col + 1) == piece) &&
    (cell b (row + 2) (col + 2) == piece) && (cell b (row + 3) (col + 3) == piece)) ||
  ((List.range (ROWS - 3)).any fun i => (List.range (COLS - 3)).any fun col =>
    (cell b (i + 3) col == piece) && (cell b (i + 3 - 1) (col + 1) == piece) &&
    (cell b (i + 3 - 2) (col + 2) == piece) && (cell b (i + 3 - 3) (col + 3) == piece))

/-- `is_board_full` (src/app.py line 138): every top cell occupied. -/
def is_board_full (b : Board) : Bool :=
  (List.range COLS).all fun col => cell b 0 col != '.'

/-- The specification of a four-in-a-row, written from the spec's words:
the board contains four contiguous cells equal to `piece` in one of the
four directions (horizontal, vertical, down-right, up-right), all within
the 6x7 index space. -/
def hasFourSpec (b : Board) (piece : Char) : Prop :=
  (∃ r c, r < ROWS ∧ c + 3 < COLS ∧ ∀ k ≤ 3, cell b r (c + k) = piece) ∨
  (∃ r c, r + 3 < ROWS ∧ c < COLS ∧ ∀ k ≤ 3, cell b (r + k) c = piece) ∨
  (∃ r c, r + 3 < ROWS ∧ c + 3 < COLS ∧ ∀ k ≤ 3, cell b (r + k) (c + k) = piece) ∨
  (∃ r c, r + 3 < ROWS ∧ c + 3 < COLS ∧ ∀ k ≤ 3, cell b (r + (3 - k)) (c + k) = piece)

/-- C1: `check_winner` returns true iff the board contains four contiguous
cells holding the piece in one of the four directions (horizontal,
vertical, down-right diagonal, up-right diagonal); in particular it is
false whenever no such window exists, i.e. when the longest run of the
piece is at most 3. -/
theorem check_winner_iff (b : Board) (p : Char) :
    check_winner b p = true ↔ hasFourSpec b p := by
  unfold check_winner hasFourSpec
  simp only [List.any_eq_true, List.mem_range, Bool.or_eq_true, Bool.and_eq_true,
    beq_iff_eq]
  constructor
  · rintro (((⟨r, hr, c, hc, ⟨⟨h0, h1⟩, h2⟩, h3⟩ | ⟨r, hr, c, hc, ⟨⟨h0, h1⟩, h2⟩, h3⟩) |
      ⟨r, hr, c, hc, ⟨⟨h0, h1⟩, h2⟩, h3⟩) | ⟨i, hi, c, hc, ⟨⟨h0, h1⟩, h2⟩, h3⟩)
    · refine Or.inl ⟨r, c, hr, by omega, ?_⟩
      intro k hk
      interval_cases k
      · simpa using h0
      · exact h1
      · exact h2
      · exact h3
    · refine Or.inr (Or.inl ⟨r, c, by omega, hc, ?_⟩)
      intro k hk
      interval_cases k
      · simpa using h0
      · exact h1
      · exact h2
      · exact h3
    · refine Or.inr (Or.inr (Or.inl ⟨r, c, by omega, by omega, ?_⟩))
      intro k hk
      interval_cases k
      · simpa using h0
      · exact h1
      · exact h2
      · exact h3
    · refine Or.inr (Or.inr (Or.inr ⟨i, c, by omega, by omega, ?_⟩))
      intro k hk
      interval_cases k
      · exact h0
      · exact h1
      · exact h2
      · simpa using h3
  · rintro (⟨r, c, hr, hc, h⟩ | ⟨r, c, hr, hc, h⟩ | ⟨r, c, hr, hc, h⟩ | ⟨r, c, hr, hc, h⟩)
    · refine Or.inl (Or.inl (Or.inl ⟨r, hr, c, by omega, ?_⟩))
      refine ⟨⟨⟨by simpa using h 0 (by omega), h 1 (by omega)⟩, h 2 (by omega)⟩,
        h 3 (by omega)⟩
    · refine Or.inl (Or.inl (Or.inr ⟨r, by omega, c, hc, ?_⟩))
      refine ⟨⟨⟨by simpa using h 0 (by omega), h 1 (by omega)⟩, h 2 (by omega)⟩,
        h 3 (by omega)⟩
    · refine Or.inl (Or.inr ⟨r, by omega, c, by omega, ?_⟩)
      refine ⟨⟨⟨by simpa using h 0 (by omega), h 1 (by omega)⟩, h 2 (by omega)⟩,
        h 3 (by omega)⟩
    · refine Or.inr ⟨r, by omega, c, by omega, ?_⟩
      refine ⟨⟨⟨h 0 (by omega), h 1 (by omega)⟩, h 2 (by omega)⟩,
        by simpa using h 3 (by omega)⟩

example : check_winner [['R','R','R','R','.','.','.'],
  ['.','.','.','.','.','.','.'], ['.','.','.','.','.','.','.'],
  ['.','.','.','.','.','.','.'], ['.','.','.','.','.','.','.'],
  ['.','.','.','.','.','.','.']] 'R' = true := by decide

example : check_winner create_empty_board 'R' = false := by decide

/-! ### drop_piece: case analysis and mutation footprint -/

/-- Reading back the written cell of `set_cell b r c p` when the write
lands inside the list structure. -/
theorem cell_set_cell_same (b : Board) (r c : Nat) (p : Char)
    (h1 : r < b.length) (h2 : c < (b.getD r []).length) :
    cell (set_cell b r c p) r c = p := by
  simp only [cell, set_cell, List.getD_eq_getElem?_getD]
  rw [List.getElem?_set, if_pos rfl, if_pos h1]
  simp only [Option.getD_some]
  rw [List.getElem?_set, if_pos rfl,
    if_pos (by simpa [List.getD_eq_getElem?_getD] using h2)]
  rfl

/-- Every other cell of `set_cell b r c p` is unchanged. -/
theorem cell_set_cell_ne (b : Board) (r c : Nat) (p : Char) (x y : Nat)
    (h : ¬(x = r ∧ y = c)) :
    cell (set_cell b r c p) x y = cell b x y := by
  simp only [cell, set_cell, List.getD_eq_getElem?_getD]
  by_cases hrx : r = x
  · subst hrx
    by_cases hrl : r < b.length
    · rw [List.getElem?_set, if_pos rfl, if_pos hrl]
      simp only [Option.getD_some]
      have hyc : ¬(c = y) := fun hc => h ⟨rfl, hc.symm⟩
      rw [List.getElem?_set, if_neg hyc]
    · rw [List.set_eq_of_length_le (by omega)]
  · rw [List.getElem?_set, if_neg hrx]

/-- A cell that reads `'.'` is a genuine in-range cell of the list
structure (the out-of-range default is `' '`). -/
theorem dot_in_range (b : Board) (r c : Nat) (h : cell b r c = '.') :
    r < b.length ∧ c < (b.getD r []).length := by
  unfold cell at h
  constructor
  · by_contra hr
    rw [List.getD_eq_getElem?_getD (l := b)] at h
    rw [List.getElem?_eq_none (by omega)] at h
    simp at h
  · by_contra hc
    rw [List.getD_eq_getElem?_getD (l := b.getD r [])] at h
    rw [List.getElem?_eq_none (by omega)] at h
    simp at h

/-- Complete case analysis of the scanning loop of `drop_piece`. -/
theorem drop_loop_cases (b : Board) (c : Nat) (p : Char) (rows : List Nat) :
    (drop_loop b c p rows = (false, -1, b) ∧ ∀ r ∈ rows, cell b r c ≠ '.') ∨
    (∃ pre r post, rows = pre ++ r :: post ∧ (∀ r' ∈ pre, cell b r' c ≠ '.') ∧
      cell b r c = '.' ∧ drop_loop b c p rows = (true, (r : Int), set_cell b r c p)) := by
  induction rows with
  | nil => exact Or.inl ⟨rfl, by simp⟩
  | cons a rs ih =>
    by_cases h : cell b a c = '.'
    · exact Or.inr ⟨[], a, rs, rfl, by simp, h, by simp [drop_loop, h]⟩
    · rcases ih with ⟨heq, hall⟩ | ⟨pre, r, post, hsplit, hpre, hdot, heq⟩
      · refine Or.inl ⟨by simp [drop_loop, h, heq], ?_⟩
        intro r hr
        rcases List.mem_cons.mp hr with rfl | hr
        · exact h
        · exact hall r hr
      · refine Or.inr ⟨a :: pre, r, post, by rw [hsplit, List.cons_append], ?_, hdot,
          by simp only [drop_loop, if_neg h]; rw [heq]⟩
        intro r' hr'
        rcases List.mem_cons.mp hr' with rfl | hr'
        · exact h
        · exact hpre r' hr'

/-- Case analysis of `drop_loop` on the concrete scan order
`range(ROWS - 1, -1, -1)`: either the column is full, or the loop stops at
the lowest (largest-index) empty row of the column. -/
theorem drop_loop_range_cases (b : Board) (c : Nat) (p : Char) :
    (drop_loop b c p ((List.range ROWS).reverse) = (false, -1, b) ∧
      ∀ r, r < ROWS → cell b r c ≠ '.') ∨
    (∃ r, r < ROWS ∧ cell b r c = '.' ∧
      (∀ r', r < r' → r' < ROWS → cell b r' c ≠ '.') ∧
      drop_loop b c p ((List.range ROWS).reverse) = (true, (r : Int), set_cell b r c p)) := by
  rcases drop_loop_cases b c p ((List.range ROWS).reverse) with
    ⟨heq, hall⟩ | ⟨pre, r, post, hsplit, hpre, hdot, heq⟩
  · refine Or.inl ⟨heq, fun r hr => hall r ?_⟩
    simp [List.mem_reverse, List.mem_range, hr]
  · have hmem : r ∈ (List.range ROWS).reverse := by rw [hsplit]; simp
    have hrR : r < ROWS := by simpa [List.mem_reverse, List.mem_range] using hmem
    refine Or.inr ⟨r, hrR, hdot, ?_, heq⟩
    intro r' hlt hr'
    have hpair : List.Pairwise (fun x y => x > y) ((List.range ROWS).reverse) := by decide
    have hmem' : r' ∈ pre ++ r :: post := by
      rw [← hsplit]; simp [List.mem_reverse, List.mem_range, hr']
    rw [hsplit] at hpair
    rcases List.mem_append.mp hmem' with hp | hp
    · exact hpre r' hp
    · rcases List.mem_cons.mp hp with rfl | hp
      · omega
      · have h2 := (List.pairwise_append.mp hpair).2.1
        have hgt : r > r' := (List.pairwise_cons.mp h2).1 r' hp
        omega

/-- C2: for a column in [1,7] with an empty cell, `drop_piece` places the
piece in the lowest empty row of that column (the largest empty row index,
rows counted from the top) and returns that row; for a full column in
[1,7] it fails; for a column outside [1,7] it fails.  The code signals
both failures by returning `(False, -1)` with the board untouched — the
spec's `ColumnFullError` / `ColumnOutOfRangeError` name these two failure
conditions. -/
theorem drop_piece_claim (b : Board) (col : Int) (p : Char) :
    (1 ≤ col ∧ col ≤ 7 →
      ((∃ r, r < ROWS ∧ cell b r (col - 1).toNat = '.') →
        ∃ r, r < ROWS ∧ cell b r (col - 1).toNat = '.' ∧
          (∀ r', r < r' → r' < ROWS → cell b r' (col - 1).toNat ≠ '.') ∧
          drop_piece b col p = (true, (r : Int), set_cell b r (col - 1).toNat p)) ∧
      ((∀ r, r < ROWS → cell b r (col - 1).toNat ≠ '.') →
        drop_piece b col p = (false, -1, b))) ∧
    (col < 1 ∨ 7 < col → drop_piece b col p = (false, -1, b)) := by
  constructor
  · rintro ⟨h1, h7⟩
    have hcond : ¬(col - 1 < 0 ∨ (COLS : Int) ≤ col - 1) := by
      push_neg
      refine ⟨by omega, by show col - 1 < ((7 : Nat) : Int); omega⟩
    constructor
    · rintro ⟨r0, hr0, hdot0⟩
      rcases drop_loop_range_cases b (col - 1).toNat p with
        ⟨heq, hall⟩ | ⟨r, hrR, hdot, hmax, heq⟩
      · exact absurd hdot0 (hall r0 hr0)
      · refine ⟨r, hrR, hdot, hmax, ?_⟩
        show (if col - 1 < 0 ∨ (COLS : Int) ≤ col - 1 then ((false, -1, b) : Bool × Int × Board)
          else drop_loop b (col - 1).toNat p ((List.range ROWS).reverse)) = _
        rw [if_neg hcond, heq]
    · intro hall
      rcases drop_loop_range_cases b (col - 1).toNat p with
        ⟨heq, _⟩ | ⟨r, hrR, hdot, _, _⟩
      · show (if col - 1 < 0 ∨ (COLS : Int) ≤ col - 1 then ((false, -1, b) : Bool × Int × Board)
          else drop_loop b (col - 1).toNat p ((List.range ROWS).reverse)) = _
        rw [if_neg hcond, heq]
      · exact absurd hdot (hall r hrR)
  · intro h
    have hcond : col - 1 < 0 ∨ (COLS : Int) ≤ col - 1 := by
      rcases h with h | h
      · left; omega
      · right; show ((7 : Nat) : Int) ≤ col - 1; omega
    show (if col - 1 < 0 ∨ (COLS : Int) ≤ col - 1 then ((false, -1, b) : Bool × Int × Board)
      else drop_loop b (col - 1).toNat p ((List.range ROWS).reverse)) = _
    rw [if_pos hcond]

/-- C2 witness: on the empty board, column 9 is rejected unchanged and
column 4 lands in the bottom row (index 5). -/
theorem drop_piece_claim_witness :
    drop_piece create_empty_board 9 'R' = (false, -1, create_empty_board) ∧
    drop_piece create_empty_board 4 'Y' = (true, 5, set_cell create_empty_board 5 3 'Y') := by
  constructor
  · exact (drop_piece_claim create_empty_board 9 'R').2 (by omega)
  · obtain ⟨r, hr, hdot, hmax, heq⟩ :=
      ((drop_piece_claim create_empty_board 4 'Y').1 (by omega)).1 ⟨5, by decide, by decide⟩
    have hr6 : r < 6 := hr
    have hr5 : r = 5 := by
      by_contra hne
      exact hmax 5 (by omega) (by decide) (by decide)
    subst hr5
    exact heq

/-- C10: when `drop_piece` fails (column outside [1,7] or column full), it
returns `(False, -1)` with the board completely unchanged; when it
succeeds it writes exactly one cell — the lowest empty cell of the chosen
column — to the piece, leaving every other cell as it was. -/
theorem drop_piece_mutation_claim (b : Board) (col : Int) (p : Char) :
    ((drop_piece b col p).1 = false → drop_piece b col p = (false, -1, b)) ∧
    (∀ ro bo, drop_piece b col p = (true, ro, bo) →
      ∃ r, r < ROWS ∧ ro = (r : Int) ∧ cell b r (col - 1).toNat = '.' ∧
        (∀ r', r < r' → r' < ROWS → cell b r' (col - 1).toNat ≠ '.') ∧
        cell bo r (col - 1).toNat = p ∧
        ∀ x y, ¬(x = r ∧ y = (col - 1).toNat) → cell bo x y = cell b x y) := by
  by_cases hcond : col - 1 < 0 ∨ (COLS : Int) ≤ col - 1
  · have heq : drop_piece b col p = (false, -1, b) := by
      show (if col - 1 < 0 ∨ (COLS : Int) ≤ col - 1 then ((false, -1, b) : Bool × Int × Board)
        else drop_loop b (col - 1).toNat p ((List.range ROWS).reverse)) = _
      rw [if_pos hcond]
    refine ⟨fun _ => heq, fun ro bo h => ?_⟩
    rw [heq] at h
    simp at h
  · have hunfold : drop_piece b col p =
        drop_loop b (col - 1).toNat p ((List.range ROWS).reverse) := by
      show (if col - 1 < 0 ∨ (COLS : Int) ≤ col - 1 then ((false, -1, b) : Bool × Int × Board)
        else drop_loop b (col - 1).toNat p ((List.range ROWS).reverse)) = _
      rw [if_neg hcond]
    rcases drop_loop_range_cases b (col - 1).toNat p with
      ⟨heq, hall⟩ | ⟨r, hrR, hdot, hmax, heq⟩
    · rw [hunfold, heq]
      exact ⟨fun _ => rfl, fun ro bo h => by simp at h⟩
    · rw [hunfold, heq]
      refine ⟨fun hfalse => by simp at hfalse, fun ro bo h => ?_⟩
      rw [Prod.mk.injEq, Prod.mk.injEq] at h
      obtain ⟨-, hro, hbo⟩ := h
      obtain ⟨hb1, hb2⟩ := dot_in_range b r (col - 1).toNat hdot
      refine ⟨r, hrR, hro.symm, hdot, hmax, ?_, ?_⟩
      · rw [← hbo]
        exact cell_set_cell_same b r (col - 1).toNat p hb1 hb2
      · intro x y hxy
        rw [← hbo]
        exact cell_set_cell_ne b r (col - 1).toNat p x y hxy

/-- C10 witness: dropping into a full column returns failure and the very
same board. -/
theorem drop_piece_mutation_claim_witness :
    drop_piece (List.replicate 6 (List.replicate 7 'R')) 1 'Y' =
      (false, -1, List.replicate 6 (List.replicate 7 'R')) :=
  (drop_piece_mutation_claim (List.replicate 6 (List.replicate 7 'R')) 1 'Y').1 (by decide)

/-! ### The bottom-up invariant (C3) -/

/-- The spec's board invariant: a cell may hold a piece only if every cell
below it in the same column is occupied (row indices grow downward). -/
def bottomUp (b : Board) : Prop :=
  ∀ c r1 r2, r1 ≤ r2 → cell b r1 c ≠ '.' → cell b r2 c ≠ '.'

/-- A sequence of `drop_piece` operations starting from the empty board;
each step keeps the board the operation returns (a failing drop returns
the board unchanged, so the successful subsequence is what acts). -/
def apply_moves (ms : List (Int × Char)) : Board :=
  ms.foldl (fun b m => (drop_piece b m.1 m.2).2.2) create_empty_board

theorem cell_oob_row (b : Board) (r c : Nat) (h : b.length ≤ r) :
    cell b r c = ' ' := by
  unfold cell
  rw [List.getD_eq_getElem?_getD (l := b), List.getElem?_eq_none h]
  rfl

/-- One `drop_piece` preserves the row count and the bottom-up invariant. -/
theorem drop_piece_preserves (b : Board) (col : Int) (p : Char)
    (hlen : b.length = ROWS) (h : bottomUp b) :
    (drop_piece b col p).2.2.length = ROWS ∧ bottomUp (drop_piece b col p).2.2 := by
  by_cases hcond : col - 1 < 0 ∨ (COLS : Int) ≤ col - 1
  · have heq : drop_piece b col p = (false, -1, b) := by
      show (if col - 1 < 0 ∨ (COLS : Int) ≤ col - 1 then ((false, -1, b) : Bool × Int × Board)
        else drop_loop b (col - 1).toNat p ((List.range ROWS).reverse)) = _
      rw [if_pos hcond]
    rw [heq]
    exact ⟨hlen, h⟩
  · have hunfold : drop_piece b col p =
        drop_loop b (col - 1).toNat p ((List.range ROWS).reverse) := by
      show (if col - 1 < 0 ∨ (COLS : Int) ≤ col - 1 then ((false, -1, b) : Bool × Int × Board)
        else drop_loop b (col - 1).toNat p ((List.range ROWS).reverse)) = _
      rw [if_neg hcond]
    rcases drop_loop_range_cases b (col - 1).toNat p with
      ⟨heq, _⟩ | ⟨r, hrR, hdot, hmax, heq⟩
    · rw [hunfold, heq]
      exact ⟨hlen, h⟩
    · rw [hunfold, heq]
      obtain ⟨hb1, hb2⟩ := dot_in_range b r (col - 1).toNat hdot
      refine ⟨by simp only [set_cell, List.length_set]; exact hlen, ?_⟩
      by_cases hp : p = '.'
      · subst hp
        have hcells : ∀ x y, cell (set_cell b r (col - 1).toNat '.') x y = cell b x y := by
          intro x y
          by_cases hxy : x = r ∧ y = (col - 1).toNat
          · obtain ⟨hx, hy⟩ := hxy
            rw [hx, hy, cell_set_cell_same b r (col - 1).toNat '.' hb1 hb2]
            exact hdot.symm
          · exact cell_set_cell_ne b r (col - 1).toNat '.' x y hxy
        intro c0 r1 r2 h12 h1occ
        rw [hcells] at h1occ ⊢
        exact h c0 r1 r2 h12 h1occ
      · intro c0 r1 r2 h12 h1occ
        by_cases hx2 : r2 = r ∧ c0 = (col - 1).toNat
        · obtain ⟨hx, hy⟩ := hx2
          rw [hx, hy, cell_set_cell_same b r (col - 1).toNat p hb1 hb2]
          exact hp
        · rw [cell_set_cell_ne b r (col - 1).toNat p r2 c0 hx2]
          by_cases hx1 : r1 = r ∧ c0 = (col - 1).toNat
          · obtain ⟨hx1r, hx1c⟩ := hx1
            have hrr2 : r ≤ r2 := hx1r ▸ h12
            have hne : r2 ≠ r := fun habs => hx2 ⟨habs, hx1c⟩
            have hgt : r < r2 := by omega
            by_cases hr2R : r2 < ROWS
            · rw [hx1c]
              exact hmax r2 hgt hr2R
            · rw [cell_oob_row b r2 c0 (by omega)]
              decide
          · rw [cell_set_cell_ne b r (col - 1).toNat p r1 c0 hx1] at h1occ
            exact h c0 r1 r2 h12 h1occ

/-- Reading an in-range cell of the empty board. -/
theorem cell_empty_in (r c : Nat) (hr : r < ROWS) (hc : c < COLS) :
    cell create_empty_board r c = '.' := by
  unfold cell create_empty_board
  rw [List.getD_eq_getElem?_getD (List.replicate ROWS (List.replicate COLS '.')) r []]
  rw [List.getElem?_replicate, if_pos hr]
  simp only [Option.getD_some]
  rw [List.getD_eq_getElem?_getD, List.getElem?_replicate, if_pos hc]
  rfl

theorem bottomUp_empty : bottomUp create_empty_board := by
  intro c r1 r2 h12 h1occ habs
  obtain ⟨hb1, hb2⟩ := dot_in_range create_empty_board r2 c habs
  have hr2 : r2 < ROWS := by
    simpa [create_empty_board, List.length_replicate] using hb1
  have hrow : create_empty_board.getD r2 [] = List.replicate COLS '.' := by
    unfold create_empty_board
    rw [List.getD_eq_getElem?_getD (List.replicate ROWS (List.replicate COLS '.')) r2 []]
    rw [List.getElem?_replicate, if_pos hr2]
    rfl
  have hc : c < COLS := by
    rw [hrow] at hb2
    simpa [List.length_replicate] using hb2
  exact h1occ (cell_empty_in r1 c (by omega) hc)

theorem apply_moves_aux (ms : List (Int × Char)) (b : Board)
    (hlen : b.length = ROWS) (h : bottomUp b) :
    (ms.foldl (fun b m => (drop_piece b m.1 m.2).2.2) b).length = ROWS ∧
    bottomUp (ms.foldl (fun b m => (drop_piece b m.1 m.2).2.2) b) := by
  induction ms generalizing b with
  | nil => exact ⟨hlen, h⟩
  | cons m rest ih =>
    simp only [List.foldl_cons]
    obtain ⟨h1, h2⟩ := drop_piece_preserves b m.1 m.2 hlen h
    exact ih _ h1 h2

/-- C3: every sequence of `drop_piece` operations starting from the empty
7x6 board yields a board with no floating piece: every occupied cell has
all cells below it in the same column occupied. -/
theorem no_floating_piece_claim (ms : List (Int × Char)) :
    bottomUp (apply_moves ms) :=
  (apply_moves_aux ms create_empty_board (by decide) bottomUp_empty).2

/-- C3 witness: the invariant at a concrete two-move sequence. -/
theorem no_floating_piece_claim_witness :
    bottomUp (apply_moves [(4, 'R'), (4, 'Y')]) :=
  no_floating_piece_claim [(4, 'R'), (4, 'Y')]

/-! ### Retry Coordinator (src/anthropic_model_v1.py) -/

abbrev MAX_RETRIES : Nat := 3

abbrev RETRY_DELAY_BASE : Nat := 1

/-- A response content block as the retry loop inspects it: only the type
tag and text payload matter. -/
inductive RespBlock
  | thinking (s : String)
  | text (s : String)
  | other (tag : String)
deriving DecidableEq, Repr

/-- Python's `str.strip()`: drop whitespace from both ends.  Written over
the character list so that it evaluates by kernel reduction (Lean's
`String.trim` is well-founded recursion over byte positions and does
not). -/
def py_strip (s : String) : String :=
  String.mk (((s.data.dropWhile Char.isWhitespace).reverse.dropWhile
    Char.isWhitespace).reverse)

/-- The `json_text` accumulation: concatenate every text block whose
payload is not blank. -/
def extract_json_text (blocks : List RespBlock) : String :=
  blocks.foldl (fun acc b =>
    match b with
    | .text t => if py_strip t ≠ "" then acc ++ t else acc
    | _ => acc) ""

/-- The thinking-summary extraction of the thinking branch: nonempty
thinking payloads joined by newlines and stripped, `none` if there are
none. -/
def thinking_summary (blocks : List RespBlock) : Option String :=
  let parts := blocks.filterMap fun b =>
    match b with
    | .thinking s => if s ≠ "" then some s else none
    | _ => none
  if parts ≠ [] then some (py_strip (String.intercalate "\n" parts)) else none

/-- The `for attempt in range(MAX_RETRIES)` loop of
`call_claude_move_with_thinking_flag` (src/anthropic_model_v1.py lines
166-244).  The network call is abstracted as the per-attempt response
sequence `resp`; `time.sleep(delay)` is recorded in the returned delay
trace.  The result carries the raw structured-answer text of the
successful attempt plus the optional thinking summary — the subsequent
`json.loads` / `int(data["column"])` decoding of that text belongs to the
external wire format, which is out of the core's scope.  The loop body is
duplicated over the thinking / standard branches exactly as in the
source. -/
def claude_attempts (use_thinking : Bool) (resp : Nat → List RespBlock) :
    List Nat → Except String (String × Option String) × List Nat
  | [] => (.error "Unexpected error in call_claude_move_with_thinking_flag", [])
  | attempt :: rest =>
    if use_thinking then
      let summary := thinking_summary (resp attempt)
      let json_text := extract_json_text (resp attempt)
      if py_strip json_text = "" then
        if attempt < MAX_RETRIES - 1 then
          let r := claude_attempts use_thinking resp rest
          (r.1, RETRY_DELAY_BASE * 2 ^ attempt :: r.2)
        else
          (.error ("No text response from Claude model after " ++
            toString MAX_RETRIES ++ " attempts."), [])
      else (.ok (json_text, summary), [])
    else
      let json_text := extract_json_text (resp attempt)
      if py_strip json_text = "" then
        if attempt < MAX_RETRIES - 1 then
          let r := claude_attempts use_thinking resp rest
          (r.1, RETRY_DELAY_BASE * 2 ^ attempt :: r.2)
        else
          (.error ("No text response from Claude model after " ++
            toString MAX_RETRIES ++ " attempts."), [])
      else (.ok (json_text, none), [])

def call_claude_move_with_thinking_flag (use_thinking : Bool)
    (resp : Nat → List RespBlock) :
    Except String (String × Option String) × List Nat :=
  claude_attempts use_thinking resp (List.range MAX_RETRIES)

/-- C5 (amended): the wrapped call makes up to 3 attempts total.  If
attempts 1-2 return a blank structured-answer segment and attempt 3
returns content, the attempt-3 result is returned, with sleeps of 1s then
2s (delay = base * 2 ^ attempt index after each failed non-final attempt;
no 4s delay occurs because the final failed attempt raises immediately).
If all 3 attempts are blank, the call fails with the exhaustion error
carrying the attempt count; the observed response segment types are not
part of the error. -/
theorem retry_claim (u : Bool) (resp : Nat → List RespBlock)
    (h0 : py_strip (extract_json_text (resp 0)) = "")
    (h1 : py_strip (extract_json_text (resp 1)) = "") :
    (py_strip (extract_json_text (resp 2)) ≠ "" →
      call_claude_move_with_thinking_flag u resp =
        (.ok (extract_json_text (resp 2),
          if u then thinking_summary (resp 2) else none), [1, 2])) ∧
    (py_strip (extract_json_text (resp 2)) = "" →
      call_claude_move_with_thinking_flag u resp =
        (.error ("No text response from Claude model after " ++
          toString MAX_RETRIES ++ " attempts."), [1, 2])) := by
  have hr : List.range MAX_RETRIES = [0, 1, 2] := rfl
  constructor
  · intro h2
    cases u <;>
      simp [call_claude_move_with_thinking_flag, hr, claude_attempts, h0, h1, h2]
  · intro h2
    cases u <;>
      simp [call_claude_move_with_thinking_flag, hr, claude_attempts, h0, h1, h2]

/-- A response trace that is blank on attempts 0 and 1 and answers on
attempt 2. -/
def respW : Nat → List RespBlock := fun n =>
  if n = 2 then [RespBlock.text "4"] else [RespBlock.thinking "mull it over"]

/-- C5 witness: blank, blank, then content: the attempt-3 result comes
back after sleeps of 1s and 2s. -/
theorem retry_claim_witness :
    call_claude_move_with_thinking_flag true respW = (.ok ("4", none), [1, 2]) := by
  have h := (retry_claim true respW (by decide) (by decide)).1 (by decide)
  rw [h]
  rfl

/-- A provider that always answers with a thinking-only response. -/
def resp_thinking_only : Nat → List RespBlock :=
  fun _ => [RespBlock.thinking "I pick the center column"]

/-- A provider that always answers with no blocks at all. -/
def resp_no_blocks : Nat → List RespBlock := fun _ => []

/-- C5 counterexample: with all three attempts empty, the error mentions
only the attempt count, and the delay trace is [1, 2] — there is no 4s
delay, and two traces with different observed segment types produce the
very same error, so the error does not carry the observed response
segment types as the claim states. -/
theorem retry_counterexample :
    call_claude_move_with_thinking_flag true resp_thinking_only =
      (.error "No text response from Claude model after 3 attempts.", [1, 2]) ∧
    call_claude_move_with_thinking_flag true resp_thinking_only =
      call_claude_move_with_thinking_flag true resp_no_blocks ∧
    resp_thinking_only 0 ≠ resp_no_blocks 0 := by
  refine ⟨rfl, rfl, by decide⟩

/-! ### Game session and series state (src/app.py) -/

inductive Player
  | gpt
  | claude
deriving DecidableEq, Repr

inductive Winner
  | gpt
  | claude
  | draw
deriving DecidableEq, Repr

structure Stats where
  wins : Nat
  losses : Nat
  draws : Nat
deriving DecidableEq, Repr

structure LastMove where
  col : Int
  row : Int
  player : Player
deriving DecidableEq, Repr

/-- One entry of `game_history` as built at src/app.py lines 345-366. -/
structure GameRecord where
  game : Nat
  time : String
  winner : String
  turns : Nat
  gpt_time : ℚ
  claude_time : ℚ
deriving DecidableEq, Repr

/-- The `GAME_STATE` dict (src/app.py lines 143-175).  Wall-clock amounts
are rationals; `winner` is `none` until set. -/
structure GameState where
  board : Board
  current_player : Player
  first_player : Player
  game_over : Bool
  winner : Option Winner
  turn_count : Nat
  move_history : List (Player × Int)
  gpt_reasoning : String
  claude_reasoning : String
  gpt_stats : Stats
  claude_stats : Stats
  current_game : Nat
  total_games : Nat
  game_history : List GameRecord
  gpt_total_time : ℚ
  claude_total_time : ℚ
  gpt_last_time : ℚ
  claude_last_time : ℚ
  last_move : Option LastMove
  gpt_model : String
  claude_model : String
  gpt_model_id : String
  claude_model_id : String
  gpt_display_name : String
  claude_display_name : String
deriving DecidableEq, Repr

def GPT_MODELS : List (String × String) :=
  [("gpt-5-mini", "gpt-5-mini"), ("gpt-5.1-low", "gpt-5.1"),
   ("gpt-5.1", "gpt-5.1"), ("gpt-5.2", "gpt-5.2")]

def CLAUDE_MODELS : List (String × String) :=
  [("claude-haiku-4.5-standard", "claude-haiku-4-5-20251001"),
   ("claude-haiku-4.5", "claude-haiku-4-5-20251001"),
   ("claude-sonnet-4.5-standard", "claude-sonnet-4-5-20250929"),
   ("claude-sonnet-4.5", "claude-sonnet-4-5-20250929")]

def GPT_DISPLAY_NAMES : List (String × String) :=
  [("gpt-5-mini", "GPT 5 Mini"), ("gpt-5.1-low", "GPT 5.1 Low"),
   ("gpt-5.1", "GPT 5.1 Medium"), ("gpt-5.2", "GPT 5.2 Medium")]

def CLAUDE_DISPLAY_NAMES : List (String × String) :=
  [("claude-haiku-4.5-standard", "Claude Haiku 4.5"),
   ("claude-haiku-4.5", "Claude Haiku 4.5 Thinking"),
   ("claude-sonnet-4.5-standard", "Claude Sonnet 4.5"),
   ("claude-sonnet-4.5", "Claude Sonnet 4.5 Thinking")]

/-- Python's `round(x, 2)` modelled over the rationals as rounding to
hundredths (the binary-float tie behavior is immaterial to every
claim). -/
def round2 (q : ℚ) : ℚ := (round (q * 100) : ℚ) / 100

/-- `init_game_state` (src/app.py lines 143-175); the
`random.choice([True, False])` outcome is the `gpt_first` argument. -/
def init_game_state (gpt_model claude_model : String) (gpt_first : Bool) : GameState :=
  { board := create_empty_board
    current_player := if gpt_first then Player.gpt else Player.claude
    first_player := if gpt_first then Player.gpt else Player.claude
    game_over := false
    winner := none
    turn_count := 0
    move_history := []
    gpt_reasoning := ""
    claude_reasoning := ""
    gpt_stats := ⟨0, 0, 0⟩
    claude_stats := ⟨0, 0, 0⟩
    current_game := 1
    total_games := 1
    game_history := []
    gpt_total_time := 0
    claude_total_time := 0
    gpt_last_time := 0
    claude_last_time := 0
    last_move := none
    gpt_model := gpt_model
    claude_model := claude_model
    gpt_model_id := (GPT_MODELS.lookup gpt_model).getD "gpt-5.1"
    claude_model_id := (CLAUDE_MODELS.lookup claude_model).getD "claude-haiku-4-5-20251001"
    gpt_display_name := (GPT_DISPLAY_NAMES.lookup gpt_model).getD "GPT 5.1 Medium"
    claude_display_name := (CLAUDE_DISPLAY_NAMES.lookup claude_model).getD "Claude Haiku 4.5 Thinking" }

/-- Python's `reasoning or 'Move selected.'`: `None` and `""` are falsy. -/
def reasoning_or_default (r : Option String) : String :=
  match r with
  | some s => if s = "" then "Move selected." else s
  | none => "Move selected."

/-- The outcome of the provider call inside a tick: the `(column,
reasoning)` the call returned together with its elapsed wall time, or the
raised exception's message. -/
inductive ProviderResult
  | ok (column : Int) (reasoning : Option String) (elapsed : ℚ)
  | err (msg : String)
deriving DecidableEq, Repr

/-- What the `/api/next-move` route answers. -/
inductive TickResult
  | errGameOver
  | drawNoMoves
  | errProvider (msg : String)
  | errDropFailed (column : Int)
  | moved (player : Player) (column : Int) (row : Int)
deriving DecidableEq, Repr

def other_player (p : Player) : Player :=
  match p with
  | Player.gpt => Player.claude
  | Player.claude => Player.gpt

/-- `next_move` (src/app.py lines 254-379): one tick of the game session.
The provider round trip is abstracted as `pr` and the wall-clock
timestamp `datetime.now().strftime(...)` as `now`.  Mutations follow the
source order; in particular the `turn_count` increment (line 266) happens
before the provider call. -/
def next_move (s : GameState) (pr : ProviderResult) (now : String) :
    TickResult × GameState :=
  if s.game_over then (TickResult.errGameOver, s)
  else
    let cp := s.current_player
    let s1 := { s with turn_count := s.turn_count + 1 }
    let piece : Char := if cp = Player.gpt then 'R' else 'Y'
    let valid := get_valid_columns s1.board
    if valid = [] then
      (TickResult.drawNoMoves, { s1 with game_over := true, winner := some Winner.draw })
    else
      match pr with
      | ProviderResult.err e =>
          (TickResult.errProvider
            ((if cp = Player.gpt then "GPT API error: " else "Claude API error: ") ++ e),
            s1)
      | ProviderResult.ok column0 reasoning elapsed =>
          let s2 :=
            if cp = Player.gpt then
              { s1 with gpt_reasoning := reasoning_or_default reasoning,
                        gpt_last_time := round2 elapsed,
                        gpt_total_time := round2 (s1.gpt_total_time + elapsed) }
            else
              { s1 with claude_reasoning := reasoning_or_default reasoning,
                        claude_last_time := round2 elapsed,
                        claude_total_time := round2 (s1.claude_total_time + elapsed) }
          let column := if column0 ∈ valid then column0 else valid.headD 0
          let dres := drop_piece s2.board column piece
          if dres.1 = false then (TickResult.errDropFailed column, s2)
          else
            let row := dres.2.1
            let s3 := { s2 with board := dres.2.2,
                                move_history := s2.move_history ++ [(cp, column)],
                                last_move := some ⟨column, row, cp⟩ }
            if check_winner s3.board piece then
              let s4 :=
                if cp = Player.gpt then
                  { s3 with game_over := true, winner := some Winner.gpt,
                            gpt_stats := { s3.gpt_stats with
                              wins := s3.gpt_stats.wins + 1 },
                            claude_stats := { s3.claude_stats with
                              losses := s3.claude_stats.losses + 1 } }
                else
                  { s3 with game_over := true, winner := some Winner.claude,
                            claude_stats := { s3.claude_stats with
                              wins := s3.claude_stats.wins + 1 },
                            gpt_stats := { s3.gpt_stats with
                              losses := s3.gpt_stats.losses + 1 } }
              let winner_name :=
                if cp = Player.gpt then s4.gpt_display_name else s4.claude_display_name
              let s5 := { s4 with game_history := s4.game_history ++
                [⟨s4.current_game, now, winner_name, s4.turn_count,
                  s4.gpt_total_time, s4.claude_total_time⟩] }
              (TickResult.moved cp column row, s5)
            else if is_board_full s3.board then
              let s4 := { s3 with game_over := true, winner := some Winner.draw,
                                  gpt_stats := { s3.gpt_stats with
                                    draws := s3.gpt_stats.draws + 1 },
                                  claude_stats := { s3.claude_stats with
                                    draws := s3.claude_stats.draws + 1 } }
              let s5 := { s4 with game_history := s4.game_history ++
                [⟨s4.current_game, now, "Draw", s4.turn_count,
                  s4.gpt_total_time, s4.claude_total_time⟩] }
              (TickResult.moved cp column row, s5)
            else
              (TickResult.moved cp column row, { s3 with current_player := other_player cp })

/-- `next_game` (src/app.py lines 382-415); the fresh session's
`random.choice` outcome is `gpt_first`. -/
def next_game (s : GameState) (gpt_first : Bool) : Except String GameState :=
  if s.current_game ≥ s.total_games then Except.error "All games completed"
  else
    let new_state := init_game_state s.gpt_model s.claude_model gpt_first
    Except.ok { new_state with
      gpt_stats := s.gpt_stats,
      claude_stats := s.claude_stats,
      game_history := s.game_history,
      total_games := s.total_games,
      current_game := s.current_game + 1 }

/-- The flat record `get_client_state` answers with. -/
structure ClientState where
  board : Board
  current_player : Player
  first_player : Player
  turn_count : Nat
  game_over : Bool
  winner : Option Winner
  last_move : Option LastMove
  move_history : List (Player × Int)
  gpt_reasoning : String
  claude_reasoning : String
  gpt_stats : Stats
  claude_stats : Stats
  current_game : Nat
  total_games : Nat
  game_history : List GameRecord
  all_games_complete : Bool
  gpt_total_time : ℚ
  claude_total_time : ℚ
  gpt_last_time : ℚ
  claude_last_time : ℚ
  gpt_display_name : String
  claude_display_name : String
deriving DecidableEq, Repr

/-- Python's `xs[-10:]`. -/
def last10 {α : Type} (xs : List α) : List α := xs.drop (xs.length - 10)

/-- `get_client_state` (src/app.py lines 418-447). -/
def get_client_state (s : GameState) : ClientState :=
  { board := s.board
    current_player := s.current_player
    first_player := s.first_player
    turn_count := s.turn_count
    game_over := s.game_over
    winner := s.winner
    last_move := s.last_move
    move_history := last10 s.move_history
    gpt_reasoning := s.gpt_reasoning.take 500
    claude_reasoning := s.claude_reasoning.take 500
    gpt_stats := s.gpt_stats
    claude_stats := s.claude_stats
    current_game := s.current_game
    total_games := s.total_games
    game_history := s.game_history
    all_games_complete := s.game_over && decide (s.total_games ≤ s.current_game)
    gpt_total_time := s.gpt_total_time
    claude_total_time := s.claude_total_time
    gpt_last_time := s.gpt_last_time
    claude_last_time := s.claude_last_time
    gpt_display_name := s.gpt_display_name
    claude_display_name := s.claude_display_name }

/-! ### Tick-level lemmas -/

theorem mem_valid_columns (b : Board) (c : Int) :
    c ∈ get_valid_columns b ↔ ∃ k, k < COLS ∧ cell b 0 k = '.' ∧ (k : Int) + 1 = c := by
  simp only [get_valid_columns, List.mem_filterMap, List.mem_range,
    Option.ite_none_right_eq_some, Option.some.injEq]

theorem headD_mem_of_ne_nil (l : List Int) (h : l ≠ []) : l.headD 0 ∈ l := by
  cases l with
  | nil => exact absurd rfl h
  | cons a t => exact List.mem_cons_self a t

/-- Dropping into a column whose top cell is empty always succeeds. -/
theorem drop_piece_of_valid (b : Board) (c : Int) (p : Char)
    (h : c ∈ get_valid_columns b) :
    ∃ row bo, drop_piece b c p = (true, (row : Int), bo) := by
  obtain ⟨k, hk, hdot, hc⟩ := (mem_valid_columns b c).mp h
  subst hc
  have hk7 : k < 7 := hk
  have hcond : ¬(((k : Int) + 1) - 1 < 0 ∨ (COLS : Int) ≤ ((k : Int) + 1) - 1) := by
    push_neg
    constructor
    · omega
    · show ((k : Int) + 1) - 1 < ((7 : Nat) : Int)
      omega
  have htn : (((k : Int) + 1) - 1).toNat = k := by omega
  rcases drop_loop_range_cases b k p with ⟨_, hall⟩ | ⟨r, hrR, _, _, heq⟩
  · exact absurd hdot (hall 0 (by decide))
  · refine ⟨r, set_cell b r k p, ?_⟩
    show (if ((k : Int) + 1) - 1 < 0 ∨ (COLS : Int) ≤ ((k : Int) + 1) - 1 then
        ((false, -1, b) : Bool × Int × Board)
      else drop_loop b (((k : Int) + 1) - 1).toNat p ((List.range ROWS).reverse)) = _
    rw [if_neg hcond, htn, heq]

/-- C6 (amended): a provider error aborts the tick with the error
surfaced, and every part of the session state except `turn_count` is
unchanged — the board, history, reasoning, times, and turn owner are
untouched and the session remains awaiting the same agent, so the tick
may be retried; but `turn_count` was already incremented before the
provider call, so the state is not entirely unchanged. -/
theorem provider_error_claim (s : GameState) (e : String) (now : String)
    (hgo : s.game_over = false)
    (hv : get_valid_columns s.board ≠ []) :
    next_move s (ProviderResult.err e) now =
      (TickResult.errProvider
        ((if s.current_player = Player.gpt then "GPT API error: "
          else "Claude API error: ") ++ e),
        { s with turn_count := s.turn_count + 1 }) ∧
    (next_move s (ProviderResult.err e) now).2.board = s.board ∧
    (next_move s (ProviderResult.err e) now).2.move_history = s.move_history ∧
    (next_move s (ProviderResult.err e) now).2.current_player = s.current_player ∧
    (next_move s (ProviderResult.err e) now).2.game_over = false := by
  have h1 : next_move s (ProviderResult.err e) now =
      (TickResult.errProvider
        ((if s.current_player = Player.gpt then "GPT API error: "
          else "Claude API error: ") ++ e),
        { s with turn_count := s.turn_count + 1 }) := by
    simp [next_move, hgo, hv]
  refine ⟨h1, by rw [h1], by rw [h1], by rw [h1], ?_⟩
  rw [h1]
  exact hgo

/-- C6 witness: on a fresh session a provider error surfaces and only the
turn counter moves. -/
theorem provider_error_claim_witness :
    next_move (init_game_state "gpt-5.1" "claude-haiku-4.5" true)
        (ProviderResult.err "boom") "12:00:00" =
      (TickResult.errProvider "GPT API error: boom",
        { init_game_state "gpt-5.1" "claude-haiku-4.5" true with turn_count := 1 }) := by
  have h := (provider_error_claim (init_game_state "gpt-5.1" "claude-haiku-4.5" true)
    "boom" "12:00:00" rfl (by decide)).1
  rw [h]
  rfl

/-- C6 counterexample: `turn_count` is incremented before the provider
call (src/app.py line 266), so a failed tick does not leave the session
state entirely unchanged. -/
theorem provider_error_counterexample :
    (next_move (init_game_state "gpt-5.1" "claude-haiku-4.5" true)
      (ProviderResult.err "boom") "12:00:00").2.turn_count = 1 ∧
    (init_game_state "gpt-5.1" "claude-haiku-4.5" true).turn_count = 0 ∧
    (next_move (init_game_state "gpt-5.1" "claude-haiku-4.5" true)
      (ProviderResult.err "boom") "12:00:00").2 ≠
      init_game_state "gpt-5.1" "claude-haiku-4.5" true := by
  refine ⟨rfl, rfl, fun habs => ?_⟩
  exact absurd (congrArg GameState.turn_count habs) (by decide)

/-- C7 (amended): `next_game` succeeds iff the current game index is
strictly below `totalGames` — whether or not the current game has
concluded — and otherwise fails with the series-complete error.  On
success it creates a fresh session (fresh board, caller-supplied random
first mover, fresh per-game fields), carries statistics and game history
forward unchanged, increments the game index by one and keeps
`totalGames` and the model configuration. -/
theorem next_game_claim (s : GameState) (gf : Bool) :
    (s.total_games ≤ s.current_game →
      next_game s gf = Except.error "All games completed") ∧
    (s.current_game < s.total_games →
      ∃ s2, next_game s gf = Except.ok s2 ∧
        s2.board = create_empty_board ∧
        s2.current_game = s.current_game + 1 ∧
        s2.total_games = s.total_games ∧
        s2.gpt_stats = s.gpt_stats ∧
        s2.claude_stats = s.claude_stats ∧
        s2.game_history = s.game_history ∧
        s2.game_over = false ∧
        s2.winner = none ∧
        s2.turn_count = 0 ∧
        s2.move_history = [] ∧
        s2.last_move = none ∧
        s2.gpt_reasoning = "" ∧
        s2.claude_reasoning = "" ∧
        s2.gpt_total_time = 0 ∧
        s2.claude_total_time = 0 ∧
        s2.first_player = (if gf then Player.gpt else Player.claude) ∧
        s2.current_player = (if gf then Player.gpt else Player.claude) ∧
        s2.gpt_model = s.gpt_model ∧
        s2.claude_model = s.claude_model) := by
  constructor
  · intro h
    simp [next_game, h]
  · intro h
    unfold next_game
    rw [if_neg (by omega)]
    exact ⟨_, rfl, rfl, rfl, rfl, rfl, rfl, rfl, rfl, rfl, rfl, rfl, rfl, rfl, rfl,
      rfl, rfl, rfl, rfl, rfl, rfl⟩

/-- C7 witness: a 3-game series advances from game 1 to game 2. -/
theorem next_game_claim_witness :
    (next_game { init_game_state "gpt-5.1" "claude-haiku-4.5" true with
        total_games := 3 } true).map (fun s2 => s2.current_game) = Except.ok 2 := by
  obtain ⟨s2, heq, hboard, hcg, hrest⟩ :=
    (next_game_claim { init_game_state "gpt-5.1" "claude-haiku-4.5" true with
      total_games := 3 } true).2 (by decide)
  rw [heq]
  show Except.ok s2.current_game = Except.ok 2
  rw [hcg]
  rfl

/-- C7 counterexample: `next_game` only checks the game index
(src/app.py line 390); on a session that is still running
(game_over = false) with current_game < total_games it succeeds, while
the claim requires the current game to be Concluded for success. -/
theorem next_game_counterexample :
    ({ init_game_state "gpt-5.1" "claude-haiku-4.5" true with
        total_games := 3 } : GameState).game_over = false ∧
    next_game { init_game_state "gpt-5.1" "claude-haiku-4.5" true with
        total_games := 3 } true =
      Except.ok { init_game_state "gpt-5.1" "claude-haiku-4.5" true with
        total_games := 3, current_game := 2 } := by
  exact ⟨rfl, rfl⟩

/-- Master case analysis of the successful provider path of `next_move`:
under a running session with legal columns available and a successful
drop of the validated column, the tick returns `moved`, appends exactly
one `(agent, column)` record, and in the board-full no-winner case
increments both draw counters. -/
theorem next_move_ok_cases (s : GameState) (col : Int) (reas : Option String)
    (t : ℚ) (now : String)
    (hgo : s.game_over = false)
    (hv : get_valid_columns s.board ≠ [])
    (row : Int) (bo : Board)
    (hdrop : drop_piece s.board
      (if col ∈ get_valid_columns s.board then col
       else (get_valid_columns s.board).headD 0)
      (if s.current_player = Player.gpt then 'R' else 'Y') = (true, row, bo)) :
    ∃ s2, next_move s (ProviderResult.ok col reas t) now =
      (TickResult.moved s.current_player
        (if col ∈ get_valid_columns s.board then col
         else (get_valid_columns s.board).headD 0) row, s2) ∧
      s2.board = bo ∧
      s2.move_history = s.move_history ++
        [(s.current_player,
          if col ∈ get_valid_columns s.board then col
          else (get_valid_columns s.board).headD 0)] ∧
      s2.turn_count = s.turn_count + 1 ∧
      (check_winner bo (if s.current_player = Player.gpt then 'R' else 'Y') = false →
        is_board_full bo = true →
        s2.gpt_stats = { s.gpt_stats with draws := s.gpt_stats.draws + 1 } ∧
        s2.claude_stats = { s.claude_stats with draws := s.claude_stats.draws + 1 } ∧
        s2.winner = some Winner.draw ∧
        s2.game_over = true) := by
  unfold next_move
  rw [hgo]
  simp only [Bool.false_eq_true, if_false]
  rw [if_neg hv]
  simp only [apply_ite GameState.board, apply_ite GameState.move_history,
    apply_ite GameState.turn_count, apply_ite GameState.gpt_stats,
    apply_ite GameState.claude_stats, ite_self]
  rw [hdrop]
  rw [if_neg (show ¬(((true, row, bo) : Bool × Int × Board).1 = false) by simp)]
  simp only [show ((true, row, bo) : Bool × Int × Board).2.2 = bo from rfl,
    show ((true, row, bo) : Bool × Int × Board).2.1 = row from rfl]
  by_cases hcw : check_winner bo (if s.current_player = Player.gpt then 'R' else 'Y') = true
  · rw [if_pos hcw]
    refine ⟨_, rfl, rfl, rfl, rfl, ?_⟩
    intro hcw2 _
    rw [hcw2] at hcw
    exact absurd hcw (by simp)
  · rw [if_neg hcw]
    by_cases hfull : is_board_full bo = true
    · rw [if_pos hfull]
      exact ⟨_, rfl, rfl, rfl, rfl, fun _ _ => ⟨rfl, rfl, rfl, rfl⟩⟩
    · rw [if_neg hfull]
      refine ⟨_, rfl, rfl, rfl, rfl, ?_⟩
      intro _ hfull2
      exact absurd hfull2 hfull

/-- C4: when the provider returns a column outside `legalColumns` while
legal columns remain, the tick behaves exactly as if the provider had
returned the first legal column: it applies that column and succeeds —
the illegal choice is not treated as an error. -/
theorem fallback_claim (s : GameState) (col : Int) (reas : Option String)
    (t : ℚ) (now : String)
    (hgo : s.game_over = false)
    (hv : get_valid_columns s.board ≠ [])
    (hcol : col ∉ get_valid_columns s.board) :
    next_move s (ProviderResult.ok col reas t) now =
      next_move s (ProviderResult.ok ((get_valid_columns s.board).headD 0) reas t) now ∧
    ∃ row s2, next_move s (ProviderResult.ok col reas t) now =
      (TickResult.moved s.current_player ((get_valid_columns s.board).headD 0) row, s2) := by
  have hmem : (get_valid_columns s.board).headD 0 ∈ get_valid_columns s.board :=
    headD_mem_of_ne_nil _ hv
  constructor
  · unfold next_move
    rw [hgo]
    simp only [Bool.false_eq_true, if_false]
    rw [if_neg hcol, if_pos hmem]
  · obtain ⟨rowN, bo, hdrop⟩ := drop_piece_of_valid s.board
      ((get_valid_columns s.board).headD 0)
      (if s.current_player = Player.gpt then 'R' else 'Y') hmem
    have hdrop2 : drop_piece s.board
        (if col ∈ get_valid_columns s.board then col
         else (get_valid_columns s.board).headD 0)
        (if s.current_player = Player.gpt then 'R' else 'Y') = (true, (rowN : Int), bo) := by
      rw [if_neg hcol]
      exact hdrop
    obtain ⟨s2, heq, -, -, -, -⟩ :=
      next_move_ok_cases s col reas t now hgo hv (rowN : Int) bo hdrop2
    refine ⟨(rowN : Int), s2, ?_⟩
    rw [heq, if_neg hcol]

/-- C4 witness: on a fresh board the provider answer 99 is replaced by the
first legal column 1. -/
theorem fallback_claim_witness :
    next_move (init_game_state "gpt-5.1" "claude-haiku-4.5" true)
        (ProviderResult.ok 99 none 0) "11:00:00" =
      next_move (init_game_state "gpt-5.1" "claude-haiku-4.5" true)
        (ProviderResult.ok 1 none 0) "11:00:00" := by
  have h := (fallback_claim (init_game_state "gpt-5.1" "claude-haiku-4.5" true) 99 none 0
    "11:00:00" rfl (by decide) (by decide)).1
  rw [h]
  have hhead : ((get_valid_columns
      (init_game_state "gpt-5.1" "claude-haiku-4.5" true).board).headD 0) = (1 : Int) := rfl
  rw [hhead]

/-- C9 (amended): a successful tick appends exactly one record — the pair
`(agent, column)` — to the move history; the record carries neither the
row placed nor the elapsed duration (those live in `last_move` and the
per-agent time fields).  The full history is retained and the
client-facing view is windowed to the last 10 records. -/
theorem move_record_claim (s : GameState) (col : Int) (reas : Option String)
    (t : ℚ) (now : String)
    (hgo : s.game_over = false)
    (hv : get_valid_columns s.board ≠ []) :
    (∃ row s2, next_move s (ProviderResult.ok col reas t) now =
        (TickResult.moved s.current_player
          (if col ∈ get_valid_columns s.board then col
           else (get_valid_columns s.board).headD 0) row, s2) ∧
      s2.move_history = s.move_history ++
        [(s.current_player,
          if col ∈ get_valid_columns s.board then col
          else (get_valid_columns s.board).headD 0)]) ∧
    (∀ st : GameState, (get_client_state st).move_history = last10 st.move_history) := by
  have hcmem : (if col ∈ get_valid_columns s.board then col
      else (get_valid_columns s.board).headD 0) ∈ get_valid_columns s.board := by
    by_cases h : col ∈ get_valid_columns s.board
    · rw [if_pos h]; exact h
    · rw [if_neg h]; exact headD_mem_of_ne_nil _ hv
  obtain ⟨rowN, bo, hdrop⟩ := drop_piece_of_valid s.board
    (if col ∈ get_valid_columns s.board then col
     else (get_valid_columns s.board).headD 0)
    (if s.current_player = Player.gpt then 'R' else 'Y') hcmem
  obtain ⟨s2, heq, -, hmh, -, -⟩ :=
    next_move_ok_cases s col reas t now hgo hv (rowN : Int) bo hdrop
  exact ⟨⟨(rowN : Int), s2, heq, hmh⟩, fun st => rfl⟩

/-- C9 witness: a first move through column 4 appends the record
`(gpt, 4)`. -/
theorem move_record_claim_witness :
    (next_move (init_game_state "gpt-5.1" "claude-haiku-4.5" true)
      (ProviderResult.ok 4 none 0) "10:00:00").2.move_history = [(Player.gpt, 4)] := by
  obtain ⟨row, s2, heq, hmh⟩ :=
    (move_record_claim (init_game_state "gpt-5.1" "claude-haiku-4.5" true) 4 none 0
      "10:00:00" rfl (by decide)).1
  rw [heq]
  show s2.move_history = [(Player.gpt, 4)]
  rw [hmh]
  rfl

/-- C9 counterexample: two successful ticks differing only in the elapsed
duration of the provider call append the very same move record (a
`(player, column)` pair), while the per-agent time fields do differ — so
the move record does not contain the elapsed duration (nor a row), contra
the claim. -/
theorem move_record_counterexample :
    (next_move (init_game_state "gpt-5.1" "claude-haiku-4.5" true)
      (ProviderResult.ok 4 none 1) "10:00:00").2.move_history =
    (next_move (init_game_state "gpt-5.1" "claude-haiku-4.5" true)
      (ProviderResult.ok 4 none 2) "10:00:00").2.move_history ∧
    (next_move (init_game_state "gpt-5.1" "claude-haiku-4.5" true)
      (ProviderResult.ok 4 none 1) "10:00:00").2.gpt_last_time ≠
    (next_move (init_game_state "gpt-5.1" "claude-haiku-4.5" true)
      (ProviderResult.ok 4 none 2) "10:00:00").2.gpt_last_time ∧
    (next_move (init_game_state "gpt-5.1" "claude-haiku-4.5" true)
      (ProviderResult.ok 4 none 1) "10:00:00").1 =
      TickResult.moved Player.gpt 4 5 := by
  refine ⟨rfl, ?_, rfl⟩
  show round2 1 ≠ round2 2
  norm_num [round2]

/-- C8 (amended): a tick that concludes Draw because the applied move
fills the board with no four-in-a-row increments both agents' draw
counters; a tick that concludes Draw because `legalColumns` is already
empty at the start of the tick (no provider call) leaves both counters
untouched. -/
theorem draw_counters_claim (s : GameState) (pr : ProviderResult)
    (col : Int) (reas : Option String) (t : ℚ) (now : String) (row : Int) (bo : Board)
    (hgo : s.game_over = false) :
    (get_valid_columns s.board = [] →
      next_move s pr now =
        (TickResult.drawNoMoves,
          { s with turn_count := s.turn_count + 1, game_over := true,
                   winner := some Winner.draw }) ∧
      (next_move s pr now).2.gpt_stats = s.gpt_stats ∧
      (next_move s pr now).2.claude_stats = s.claude_stats) ∧
    (get_valid_columns s.board ≠ [] →
      drop_piece s.board
          (if col ∈ get_valid_columns s.board then col
           else (get_valid_columns s.board).headD 0)
          (if s.current_player = Player.gpt then 'R' else 'Y') = (true, row, bo) →
      check_winner bo (if s.current_player = Player.gpt then 'R' else 'Y') = false →
      is_board_full bo = true →
      ∃ s2, next_move s (ProviderResult.ok col reas t) now =
        (TickResult.moved s.current_player
          (if col ∈ get_valid_columns s.board then col
           else (get_valid_columns s.board).headD 0) row, s2) ∧
        s2.gpt_stats = { s.gpt_stats with draws := s.gpt_stats.draws + 1 } ∧
        s2.claude_stats = { s.claude_stats with draws := s.claude_stats.draws + 1 } ∧
        s2.winner = some Winner.draw ∧
        s2.game_over = true) := by
  constructor
  · intro hempty
    have h1 : next_move s pr now =
        (TickResult.drawNoMoves,
          { s with turn_count := s.turn_count + 1, game_over := true,
                   winner := some Winner.draw }) := by
      unfold next_move
      rw [hgo]
      simp only [Bool.false_eq_true, if_false]
      rw [if_pos hempty]
    exact ⟨h1, by rw [h1], by rw [h1]⟩
  · intro hv hdrop hcw hfull
    obtain ⟨s2, heq, -, -, -, himp⟩ :=
      next_move_ok_cases s col reas t now hgo hv row bo hdrop
    obtain ⟨hg, hc, hw, hov⟩ := himp hcw hfull
    exact ⟨s2, heq, hg, hc, hw, hov⟩

/-- A full 7x6 board with no four-in-a-row for either piece. -/
def draw_board : Board :=
  [['R', 'Y', 'R', 'Y', 'R', 'Y', 'R'],
   ['R', 'Y', 'R', 'Y', 'R', 'Y', 'R'],
   ['Y', 'R', 'Y', 'R', 'Y', 'R', 'Y'],
   ['Y', 'R', 'Y', 'R', 'Y', 'R', 'Y'],
   ['R', 'Y', 'R', 'Y', 'R', 'Y', 'R'],
   ['R', 'Y', 'R', 'Y', 'R', 'Y', 'R']]

/-- `draw_board` with the top-left cell still empty. -/
def near_draw_board : Board :=
  [['.', 'Y', 'R', 'Y', 'R', 'Y', 'R'],
   ['R', 'Y', 'R', 'Y', 'R', 'Y', 'R'],
   ['Y', 'R', 'Y', 'R', 'Y', 'R', 'Y'],
   ['Y', 'R', 'Y', 'R', 'Y', 'R', 'Y'],
   ['R', 'Y', 'R', 'Y', 'R', 'Y', 'R'],
   ['R', 'Y', 'R', 'Y', 'R', 'Y', 'R']]

/-- C8 witness: the move that fills the last empty cell with no winner
concludes Draw and moves both draw counters from 0 to 1. -/
theorem draw_counters_claim_witness :
    (next_move { init_game_state "gpt-5.1" "claude-haiku-4.5" true with
        board := near_draw_board } (ProviderResult.ok 1 none 0)
      "09:00:00").2.gpt_stats.draws = 1 ∧
    (next_move { init_game_state "gpt-5.1" "claude-haiku-4.5" true with
        board := near_draw_board } (ProviderResult.ok 1 none 0)
      "09:00:00").2.claude_stats.draws = 1 := by
  obtain ⟨s2, heq, hg, hc, -, -⟩ :=
    (draw_counters_claim { init_game_state "gpt-5.1" "claude-haiku-4.5" true with
        board := near_draw_board } (ProviderResult.ok 1 none 0) 1 none 0 "09:00:00"
      0 draw_board rfl).2 (by decide) (by decide) (by decide) (by decide)
  rw [heq]
  refine ⟨?_, ?_⟩
  · show s2.gpt_stats.draws = 1
    rw [hg]
    rfl
  · show s2.claude_stats.draws = 1
    rw [hc]
    rfl

/-- C8 counterexample: a tick that concludes Draw via the
empty-legal-columns short-circuit (src/app.py lines 272-279) leaves both
draw counters at 0, contradicting the claim that every Concluded(Draw)
transition increments them. -/
theorem draw_counters_counterexample :
    (next_move { init_game_state "gpt-5.1" "claude-haiku-4.5" true with
        board := draw_board } (ProviderResult.err "unused") "09:00:00").2.winner =
      some Winner.draw ∧
    (next_move { init_game_state "gpt-5.1" "claude-haiku-4.5" true with
        board := draw_board } (ProviderResult.err "unused") "09:00:00").2.game_over =
      true ∧
    (next_move { init_game_state "gpt-5.1" "claude-haiku-4.5" true with
        board := draw_board } (ProviderResult.err "unused") "09:00:00").2.gpt_stats.draws =
      0 ∧
    (next_move { init_game_state "gpt-5.1" "claude-haiku-4.5" true with
        board := draw_board } (ProviderResult.err "unused") "09:00:00").2.claude_stats.draws =
      0 := by
  exact ⟨rfl, rfl, rfl, rfl⟩
